import Mathlib

/-!
# Eternalgy EMS — verification of the telemetry hub and window-aggregation engine

Shallow embedding of the backend's 30-minute block aggregator
(`src/services/blockAggregator.js`, reproduced in
`backend/API_TESTING_GUIDE.md`), the database query layer
(`backend/src/db/queries.js`), the WebSocket message handlers
(`backend/src/index.js`) and the frontend endpoint resolver
(`useWebSocket` hook).

Time is modelled as local wall-clock milliseconds (`Nat`).  A JavaScript
`Date` in a fixed-offset time zone is determined by its local-time
millisecond value; every operation the sources use (`getMinutes`,
`getHours`, `setMinutes`, `getTime`-based comparisons, adding 30 minutes)
acts on that value, so the embedding works with it directly.  Power values
are modelled as exact rationals (`ℚ`); JavaScript numbers are binary
floats, but every concrete instance checked below (integral sums,
`1500 * (1/60) = 25`) is exactly representable, so the models agree there.
-/

namespace EMS

/-- Milliseconds in one minute. -/
def msPerMinute : Nat := 60000

/-- Milliseconds in one hour. -/
def msPerHour : Nat := 3600000

/-- Milliseconds in a 30-minute block. -/
def msPerBlock : Nat := 1800000

/-- JS `date.getMinutes()` on a local-ms value. -/
def getMinutes (t : Nat) : Nat := t / msPerMinute % 60

/-- JS `date.getHours()` on a local-ms value. -/
def getHours (t : Nat) : Nat := t / msPerHour % 24

/-- JS `date.getSeconds()` on a local-ms value. -/
def getSeconds (t : Nat) : Nat := t / 1000 % 60

/-- JS `date.getMilliseconds()` on a local-ms value. -/
def getMilliseconds (t : Nat) : Nat := t % 1000

/-- `getCurrentBlockStart` from `blockAggregator.js`:
`blockMinutes = minutes < 30 ? 0 : 30; date.setMinutes(blockMinutes, 0, 0)`.
`setMinutes(m, 0, 0)` keeps the date and hour, sets the minute to `m` and
zeroes seconds and milliseconds, i.e. the result is the hour base plus
`m` minutes. -/
def getCurrentBlockStart (t : Nat) : Nat :=
  let minutes := getMinutes t
  let blockMinutes := if minutes < 30 then 0 else 30
  t / msPerHour * msPerHour + blockMinutes * msPerMinute

/-- `getBlockEnd` from `blockAggregator.js`:
`end.setMinutes(end.getMinutes() + 30)`.  `setMinutes(m)` keeps the date,
hour, seconds and milliseconds and sets the minute count to `m`, carrying
any overflow past 59 into the hour. -/
def getBlockEnd (blockStart : Nat) : Nat :=
  blockStart / msPerHour * msPerHour
    + (getMinutes blockStart + 30) * msPerMinute
    + blockStart % msPerMinute

/-- `isPeakHour` from `blockAggregator.js`:
`const hour = new Date(timestamp).getHours(); return hour >= 14 && hour < 22`. -/
def isPeakHour (t : Nat) : Bool :=
  14 ≤ getHours t && getHours t < 22

/-- A row of the `energy_readings` table (the columns the aggregator reads). -/
structure EnergyReading where
  meter_id : Nat
  timestamp : Nat
  total_power_kw : ℚ
deriving DecidableEq

/-- `getReadingsByTimeRange` from `queries.js`:
`SELECT * FROM energy_readings WHERE meter_id = $1 AND timestamp >= $2 AND
timestamp <= $3 ORDER BY timestamp ASC`.  The `ORDER BY` is modelled as a
(stable) insertion sort on the timestamp: any sort producing a
timestamp-ascending permutation of the filtered rows is a faithful model
of the SQL ordering. -/
def getReadingsByTimeRange (readings : List EnergyReading)
    (meterId startTime endTime : Nat) : List EnergyReading :=
  List.insertionSort (fun a b => a.timestamp ≤ b.timestamp)
    (readings.filter fun r =>
      r.meter_id == meterId && startTime ≤ r.timestamp && r.timestamp ≤ endTime)

/-- A row of the `thirty_min_blocks` table. -/
structure ThirtyMinBlock where
  meter_id : Nat
  block_start : Nat
  block_end : Nat
  total_kwh : ℚ
  avg_power_kw : ℚ
  max_power_kw : ℚ
  min_power_kw : ℚ
  reading_count : Nat
  is_peak_hour : Bool
deriving DecidableEq

/-- The `ON CONFLICT (meter_id, block_start)` key of `thirty_min_blocks`. -/
def blockMatches (meterId blockStart : Nat) (b : ThirtyMinBlock) : Bool :=
  b.meter_id == meterId && b.block_start == blockStart

/-- `upsertBlock` from `queries.js`:
`INSERT ... ON CONFLICT (meter_id, block_start) DO UPDATE SET total_kwh = $4,
avg_power_kw = $5, max_power_kw = $6, min_power_kw = $7, reading_count = $8,
updated_at = NOW() RETURNING *`.  The conflict branch does NOT touch
`block_end` or `is_peak_hour`.  Returns the new table together with the
`RETURNING *` row; the unique constraint guarantees at most one matching
row, which `find?` locates. -/
def upsertBlock (blocks : List ThirtyMinBlock) (meterId blockStart blockEnd : Nat)
    (totalKwh avgPowerKw maxPowerKw minPowerKw : ℚ) (readingCount : Nat)
    (isPeak : Bool) : List ThirtyMinBlock × ThirtyMinBlock :=
  match blocks.find? (blockMatches meterId blockStart) with
  | some existing =>
      let updated : ThirtyMinBlock :=
        { existing with
          total_kwh := totalKwh
          avg_power_kw := avgPowerKw
          max_power_kw := maxPowerKw
          min_power_kw := minPowerKw
          reading_count := readingCount }
      (blocks.map fun b => if blockMatches meterId blockStart b then updated else b,
       updated)
  | none =>
      let inserted : ThirtyMinBlock :=
        ⟨meterId, blockStart, blockEnd, totalKwh, avgPowerKw, maxPowerKw,
         minPowerKw, readingCount, isPeak⟩
      (blocks ++ [inserted], inserted)

/-- `calculateBlock` from `blockAggregator.js`.  Returns the updated
`thirty_min_blocks` table and the value the function returns (`none`
models the `null` returned when the window holds no readings; otherwise
the upserted row). -/
def calculateBlock (readings : List EnergyReading) (blocks : List ThirtyMinBlock)
    (meterId blockStart blockEnd : Nat) :
    List ThirtyMinBlock × Option ThirtyMinBlock :=
  let rs := getReadingsByTimeRange readings meterId blockStart blockEnd
  if rs.length = 0 then
    (blocks, none)
  else
    let powerValues := rs.map (·.total_power_kw)
    let sumPower := powerValues.foldl (· + ·) 0
    let avgPower := sumPower / (rs.length : ℚ)
    let maxPower := powerValues.foldl max powerValues.headI
    let minPower := powerValues.foldl min powerValues.headI
    let totalKwh := sumPower * (1 / 60)
    let isPeak := isPeakHour blockStart
    let res :=
      upsertBlock blocks meterId blockStart blockEnd totalKwh avgPower maxPower
        minPower rs.length isPeak
    (res.1, some res.2)

/-- The Reading Store state the handlers touch. -/
structure DB where
  readings : List EnergyReading
  blocks : List ThirtyMinBlock
deriving DecidableEq

/-- The object literal `calculateBlockForTimestamp` returns. -/
structure BlockForTimestampResult where
  block : Option ThirtyMinBlock
  blockStart : Nat
  blockEnd : Nat
  isPeakHour : Bool
deriving DecidableEq

/-- `calculateBlockForTimestamp` from `blockAggregator.js`. -/
def calculateBlockForTimestamp (db : DB) (meterId timestamp : Nat) :
    DB × BlockForTimestampResult :=
  let blockStart := getCurrentBlockStart timestamp
  let blockEnd := getBlockEnd blockStart
  let res := calculateBlock db.readings db.blocks meterId blockStart blockEnd
  ({ db with blocks := res.1 },
   ⟨res.2, blockStart, blockEnd, isPeakHour timestamp⟩)

/-- `insertReading` from `queries.js` (append-only `INSERT`). -/
def insertReading (readings : List EnergyReading) (meterId timestamp : Nat)
    (totalPowerKw : ℚ) : List EnergyReading :=
  readings ++ [⟨meterId, timestamp, totalPowerKw⟩]

/-- Status carried by the `simulator:acknowledged` message. -/
inductive AckStatus where
  | accepted
  | error
deriving DecidableEq

/-- Messages `index.js` can send back to the reading's sender:
the `simulator:acknowledged` frame (with its status) and the outer
handler's generic `{type: 'error'}` frame. -/
inductive SenderMsg where
  | ack (status : AckStatus)
  | genericError
deriving DecidableEq

/-- `handleMeterReading` from `index.js`, entered after validation, on the
path where the append (`insertReading`) succeeds.  `aggStorageError` says
whether the Reading Store fails inside the subsequent
`calculateBlockForTimestamp` (fetch or persist); on such a failure no
summary row is written, the `catch` block logs, sends the
`simulator:acknowledged` frame with `status: 'error'`, sets
`error.silent = true` and rethrows, and the outer message handler then
suppresses its generic `{type: 'error'}` frame because of the flag.
Returns the resulting store state and the frames sent to the sender. -/
def handleMeterReading (db : DB) (meterId timestamp : Nat) (totalPowerKw : ℚ)
    (aggStorageError : Bool) : DB × List SenderMsg :=
  let db1 : DB := { db with readings := insertReading db.readings meterId timestamp totalPowerKw }
  if aggStorageError then
    (db1, [SenderMsg.ack AckStatus.error])
  else
    let res := calculateBlockForTimestamp db1 meterId timestamp
    (res.1, [SenderMsg.ack AckStatus.accepted])

/-- `WebSocket.OPEN`. -/
def WSOPEN : Nat := 1

/-- A connected WebSocket client, reduced to its ready state. -/
structure Client where
  readyState : Nat
deriving DecidableEq

/-- `getDashboardStats` from `index.js`:
`dashboardsOnline = [...clients.dashboards].filter(c => c.readyState ===
WebSocket.OPEN).length; dashboardsReady = dashboardsOnline > 0`. -/
def getDashboardStats (dashboards : List Client) : Nat × Bool :=
  let dashboardsOnline := (dashboards.filter fun c => c.readyState == WSOPEN).length
  (dashboardsOnline, decide (dashboardsOnline > 0))

/-- A producer session's entry in `clients.simulators`. -/
structure Registration where
  deviceId : String
  simulatorName : String
deriving DecidableEq

/-- The status-bearing fields of the `simulator:handshake-ack` payload. -/
structure HandshakePayload where
  status : String
  dashboardsOnline : Nat
  dashboardsReady : Bool
deriving DecidableEq

/-- `buildHandshakePayload` from `index.js`:
`let status = 'error'; if (registration) { if (dashboardsReady) status =
'ok'; else status = 'warning'; }`; the payload carries `dashboardsOnline`
and `dashboardsReady` from `getDashboardStats()`. -/
def buildHandshakePayload (registration : Option Registration)
    (dashboards : List Client) : HandshakePayload :=
  let stats := getDashboardStats dashboards
  let status :=
    match registration with
    | some _ => if stats.2 then "ok" else "warning"
    | none => "error"
  ⟨status, stats.1, stats.2⟩

/-- `useWebSocket` onclose:
`const wasAbnormal = !event.wasClean && event.code !== 1000`. -/
def wasAbnormalClose (wasClean : Bool) (code : Nat) : Bool :=
  !wasClean && code != 1000

/-- The fixed fallback-advance delay in the onclose handler (`500` ms). -/
def fallbackDelayMs : Nat := 500

/-- What the `useWebSocket` onclose handler schedules next, given the
candidate count, the index the closed socket was connected at, the
configured retry delay, the intentional-close flag (`manualCloseRef`) and
the close event's `wasClean`/`code`.  `none` means no reconnection is
scheduled; `some (i, d)` means `connectToIndex(i)` is scheduled after
`d` milliseconds. -/
def oncloseNext (numCandidates index retryDelayMs : Nat)
    (manualClose wasClean : Bool) (code : Nat) : Option (Nat × Nat) :=
  if manualClose then
    none
  else if wasAbnormalClose wasClean code && index + 1 < numCandidates then
    some (index + 1, fallbackDelayMs)
  else
    some (0, retryDelayMs)

/-- The candidate-list effect of `useWebSocket`:
`Array.from(new Set([url, ...fallbackUrls].filter(Boolean)))` — drop empty
strings, then de-duplicate keeping first occurrences. -/
def buildCandidates (url : String) (fallbackUrls : List String) : List String :=
  ((url :: fallbackUrls).filter fun s => !s.isEmpty).foldl
    (fun acc x => if x ∈ acc then acc else acc ++ [x]) []

/-- Thirty one-minute samples of 50 kW filling the window `[0, 30min]`
(the worked example of the spec). -/
def thirtyReadings : List EnergyReading :=
  (List.range 30).map fun i => ⟨1, i * msPerMinute, 50⟩

/-! ## Helper lemmas -/

/-- `getBlockEnd` always adds exactly 30 minutes: the minute field plus the
sub-minute remainder reassemble the offset within the hour, and
`setMinutes` carries overflow past 59 into the hour. -/
theorem getBlockEnd_eq (s : Nat) : getBlockEnd s = s + msPerBlock := by
  simp only [getBlockEnd, getMinutes, msPerBlock, msPerMinute, msPerHour]
  omega

/-- Truncating the minutes to `:00`/`:30` never changes the hour. -/
theorem getHours_getCurrentBlockStart (t : Nat) :
    getHours (getCurrentBlockStart t) = getHours t := by
  simp only [getHours, getCurrentBlockStart, getMinutes, msPerMinute, msPerHour]
  split_ifs with h <;> omega

/-- Every instant of a 30-minute window aligned to `:00`/`:30` falls in the
same local hour as the window start. -/
theorem getHours_window (s t : Nat) (hs : s % msPerBlock = 0)
    (h1 : s ≤ t) (h2 : t < s + msPerBlock) : getHours t = getHours s := by
  simp only [getHours, msPerHour] at *
  simp only [msPerBlock] at *
  omega

/-- The `RETURNING *` row of `upsertBlock` carries the `total_kwh`
argument on both the insert and the conflict branch. -/
theorem upsertBlock_ret_total (blocks : List ThirtyMinBlock) (m s e : Nat)
    (tk ap xp np : ℚ) (c : Nat) (pk : Bool) :
    (upsertBlock blocks m s e tk ap xp np c pk).2.total_kwh = tk := by
  unfold upsertBlock
  cases blocks.find? (blockMatches m s) <;> simp

/-- Row-wise invariant preservation for `upsertBlock`: a property holding
on every stored row, preserved by the conflict-branch update and satisfied
by the freshly inserted row, holds on every row of the new table. -/
theorem upsertBlock_mem (P : ThirtyMinBlock → Prop)
    (blocks : List ThirtyMinBlock) (m s e : Nat)
    (tk ap xp np : ℚ) (c : Nat) (pk : Bool)
    (hblocks : ∀ b ∈ blocks, P b)
    (hupd : ∀ b, P b →
      P ⟨b.meter_id, b.block_start, b.block_end, tk, ap, xp, np, c, b.is_peak_hour⟩)
    (hins : P ⟨m, s, e, tk, ap, xp, np, c, pk⟩) :
    ∀ b ∈ (upsertBlock blocks m s e tk ap xp np c pk).1, P b := by
  intro b hb
  unfold upsertBlock at hb
  cases hfind : blocks.find? (blockMatches m s) with
  | some existing =>
      rw [hfind] at hb
      simp only [List.mem_map] at hb
      obtain ⟨b0, hb0, rfl⟩ := hb
      by_cases hmatch : blockMatches m s b0 = true
      · simp only [hmatch, if_pos] at *
        have hmem := List.mem_of_find?_eq_some hfind
        have := hupd existing (hblocks existing hmem)
        cases existing
        simpa using this
      · simp only [hmatch] at *
        simpa using hblocks b0 hb0
  | none =>
      rw [hfind] at hb
      simp only [List.mem_append, List.mem_singleton] at hb
      rcases hb with hb | rfl
      · exact hblocks b hb
      · exact hins

/-- When the window holds at least one reading, `calculateBlock` returns a
row whose `total_kwh` is the sum of the fetched power values times
`1/60`. -/
theorem calculateBlock_total_kwh (readings : List EnergyReading)
    (blocks : List ThirtyMinBlock) (m s e : Nat)
    (h : getReadingsByTimeRange readings m s e ≠ []) :
    (calculateBlock readings blocks m s e).2.map ThirtyMinBlock.total_kwh
      = some (((getReadingsByTimeRange readings m s e).map
          EnergyReading.total_power_kw).sum * (1 / 60)) := by
  have hlen : ¬((getReadingsByTimeRange readings m s e).length = 0) := by
    simpa [List.length_eq_zero] using h
  simp only [calculateBlock]
  rw [if_neg hlen]
  simp [upsertBlock_ret_total, List.sum_eq_foldl]

/-! ## Claim theorems -/

/-- C1: for every window containing at least one stored reading, the
aggregator's total energy equals the sum of the readings' power values
(kW) multiplied by `1/60`; and for the window holding exactly 30 readings
of 50 kW each the computed total is exactly `25` kWh. -/
theorem total_energy_is_sum_div_60 (readings : List EnergyReading)
    (blocks : List ThirtyMinBlock) (m s e : Nat)
    (h : getReadingsByTimeRange readings m s e ≠ []) :
    ((calculateBlock readings blocks m s e).2.map ThirtyMinBlock.total_kwh
        = some (((getReadingsByTimeRange readings m s e).map
            EnergyReading.total_power_kw).sum * (1 / 60))) ∧
    ((calculateBlock thirtyReadings [] 1 0 1800000).2.map ThirtyMinBlock.total_kwh
        = some 25) := by
  refine ⟨calculateBlock_total_kwh readings blocks m s e h, ?_⟩
  have hq : getReadingsByTimeRange thirtyReadings 1 0 1800000 = thirtyReadings := by decide
  have h30 : thirtyReadings.map EnergyReading.total_power_kw
      = List.replicate 30 (50 : ℚ) := by decide
  rw [calculateBlock_total_kwh thirtyReadings [] 1 0 1800000 (by decide), hq, h30,
    List.sum_replicate]
  norm_num

/-- Witness for C1 at a single stored reading of 50 kW. -/
theorem total_energy_is_sum_div_60_witness :
    (calculateBlock [⟨1, 900000, 50⟩] [] 1 0 1800000).2.map ThirtyMinBlock.total_kwh
      = some (((getReadingsByTimeRange [⟨1, 900000, 50⟩] 1 0 1800000).map
          EnergyReading.total_power_kw).sum * (1 / 60)) :=
  (total_energy_is_sum_div_60 [⟨1, 900000, 50⟩] [] 1 0 1800000 (by decide)).1

/-- C2: for every timestamp `t`, `getCurrentBlockStart t ≤ t <
getCurrentBlockStart t + 30min`, the window start has minutes 0 or 30 with
zero seconds and milliseconds, and the window end returned with it
(`getBlockEnd`, also as surfaced by `calculateBlockForTimestamp`) equals
the window start plus 30 minutes. -/
theorem window_start_alignment (db : DB) (m t : Nat) :
    getCurrentBlockStart t ≤ t ∧ t < getCurrentBlockStart t + msPerBlock ∧
    (getMinutes (getCurrentBlockStart t) = 0 ∨ getMinutes (getCurrentBlockStart t) = 30) ∧
    getSeconds (getCurrentBlockStart t) = 0 ∧
    getMilliseconds (getCurrentBlockStart t) = 0 ∧
    getBlockEnd (getCurrentBlockStart t) = getCurrentBlockStart t + msPerBlock ∧
    (calculateBlockForTimestamp db m t).2.blockEnd
      = getCurrentBlockStart t + msPerBlock := by
  refine ?_
  have hmain :
      getCurrentBlockStart t ≤ t ∧ t < getCurrentBlockStart t + msPerBlock ∧
      (getMinutes (getCurrentBlockStart t) = 0 ∨ getMinutes (getCurrentBlockStart t) = 30) ∧
      getSeconds (getCurrentBlockStart t) = 0 ∧
      getMilliseconds (getCurrentBlockStart t) = 0 := by
    simp only [getCurrentBlockStart, getMinutes, getSeconds, getMilliseconds,
      msPerBlock, msPerMinute, msPerHour]
    split_ifs with h <;> omega
  refine ⟨hmain.1, hmain.2.1, hmain.2.2.1, hmain.2.2.2.1, hmain.2.2.2.2,
    getBlockEnd_eq _, ?_⟩
  simp [calculateBlockForTimestamp, getBlockEnd_eq]

/-- C3: every row of the summary table written by `calculateBlock` has its
peak flag true exactly when the local hour of its window start lies in
`[14, 22)` (assuming the table satisfied this before), and the peak
classification is constant across an aligned 30-minute window, so a window
is entirely peak or entirely off-peak. -/
theorem peak_flag_iff_hour_in_14_22 (readings : List EnergyReading)
    (blocks : List ThirtyMinBlock) (m s e : Nat)
    (hinv : ∀ b ∈ blocks, b.is_peak_hour = true ↔
      14 ≤ getHours b.block_start ∧ getHours b.block_start < 22) :
    (∀ b ∈ (calculateBlock readings blocks m s e).1,
       b.is_peak_hour = true ↔
         14 ≤ getHours b.block_start ∧ getHours b.block_start < 22) ∧
    (∀ t, s % msPerBlock = 0 → s ≤ t → t < s + msPerBlock →
       isPeakHour t = isPeakHour s) := by
  constructor
  · simp only [calculateBlock]
    by_cases hlen : (getReadingsByTimeRange readings m s e).length = 0
    · rw [if_pos hlen]
      exact hinv
    · rw [if_neg hlen]
      refine upsertBlock_mem _ blocks m s e _ _ _ _ _ _ hinv ?_ ?_
      · intro b hb
        simpa using hb
      · simp [isPeakHour]
  · intro t h0 h1 h2
    simp [isPeakHour, getHours_window s t h0 h1 h2]

/-- Witness for C3: a 14:00 window start (local ms 50400000), with one
stored summary row carrying a correct peak flag; an instant one
millisecond into the window classifies like the window start. -/
theorem peak_flag_iff_hour_in_14_22_witness :
    isPeakHour 50400001 = isPeakHour 50400000 :=
  (peak_flag_iff_hour_in_14_22 [] [⟨1, 50400000, 52200000, 0, 0, 0, 0, 0, true⟩]
    1 50400000 52200000 (by decide)).2 50400001 (by decide) (by decide) (by decide)

/-- C4: when zero readings are stored in the window, `calculateBlock`
returns `null` and leaves the summary table untouched, so a pre-existing
summary row for the same (meter, window start) key is unchanged. -/
theorem empty_window_returns_no_summary (readings : List EnergyReading)
    (blocks : List ThirtyMinBlock) (m s e : Nat)
    (h : getReadingsByTimeRange readings m s e = []) :
    calculateBlock readings blocks m s e = (blocks, none) := by
  simp [calculateBlock, h]

/-- Witness for C4: no readings stored at all; a pre-existing summary row
for the very same key (meter 1, window start 0) survives unchanged. -/
theorem empty_window_returns_no_summary_witness :
    calculateBlock [] [⟨1, 0, 1800000, 1, 2, 3, 4, 5, false⟩] 1 0 1800000
      = ([⟨1, 0, 1800000, 1, 2, 3, 4, 5, false⟩], none) :=
  empty_window_returns_no_summary [] [⟨1, 0, 1800000, 1, 2, 3, 4, 5, false⟩]
    1 0 1800000 (by decide)

/-- C5: the reading fetch returns exactly the stored readings of the meter
with `windowStart ≤ timestamp ≤ windowEnd` (inclusive at both ends),
ordered ascending by timestamp; consequently a reading landing exactly on
a 30-minute boundary `B` is fetched both for the window ending at `B` and
for the window starting at `B`. -/
theorem readings_fetch_inclusive_range (readings : List EnergyReading)
    (m s e : Nat) (r : EnergyReading) :
    (r ∈ getReadingsByTimeRange readings m s e ↔
       r ∈ readings ∧ r.meter_id = m ∧ s ≤ r.timestamp ∧ r.timestamp ≤ e) ∧
    (getReadingsByTimeRange readings m s e).Pairwise
      (fun a b => a.timestamp ≤ b.timestamp) ∧
    (∀ B, r ∈ readings → r.meter_id = m → r.timestamp = B → B % msPerBlock = 0 →
       msPerBlock ≤ B →
       r ∈ getReadingsByTimeRange readings m (B - msPerBlock) B ∧
       r ∈ getReadingsByTimeRange readings m B (B + msPerBlock)) := by
  have hmem : ∀ (s' e' : Nat),
      (r ∈ getReadingsByTimeRange readings m s' e' ↔
        r ∈ readings ∧ r.meter_id = m ∧ s' ≤ r.timestamp ∧ r.timestamp ≤ e') := by
    intro s' e'
    simp [getReadingsByTimeRange, (List.perm_insertionSort _ _).mem_iff,
      List.mem_filter, and_assoc]
  refine ⟨hmem s e, ?_, ?_⟩
  · haveI : IsTotal EnergyReading (fun a b => a.timestamp ≤ b.timestamp) :=
      ⟨fun a b => Nat.le_total a.timestamp b.timestamp⟩
    haveI : IsTrans EnergyReading (fun a b => a.timestamp ≤ b.timestamp) :=
      ⟨fun a b c => Nat.le_trans⟩
    exact List.sorted_insertionSort _ _
  · intro B hr hm ht hBalign hB
    exact ⟨(hmem _ _).mpr ⟨hr, hm, by omega, by omega⟩,
           (hmem _ _).mpr ⟨hr, hm, by omega, by omega⟩⟩

/-- Witness for C5: a reading stored exactly on the boundary `B = 30min`
is fetched by the window ending at `B` and by the window starting at
`B`. -/
theorem readings_fetch_inclusive_range_witness :
    (⟨1, 1800000, 50⟩ : EnergyReading)
        ∈ getReadingsByTimeRange [⟨1, 1800000, 50⟩] 1 (1800000 - msPerBlock) 1800000 ∧
    (⟨1, 1800000, 50⟩ : EnergyReading)
        ∈ getReadingsByTimeRange [⟨1, 1800000, 50⟩] 1 1800000 (1800000 + msPerBlock) :=
  (readings_fetch_inclusive_range [⟨1, 1800000, 50⟩] 1 0 0 ⟨1, 1800000, 50⟩).2.2
    1800000 (by decide) rfl rfl (by decide) (by decide)

/-- C6: on a key conflict the upsert overwrites exactly total, average,
maximum and minimum power and the reading count, keeping the stored
`block_end` and `is_peak_hour` rather than the call's arguments; on insert
all nine columns come from the arguments. -/
theorem upsert_conflict_updates_five_fields (blocks : List ThirtyMinBlock)
    (m s e : Nat) (tk ap xp np : ℚ) (c : Nat) (pk : Bool) :
    (∀ existing, blocks.find? (blockMatches m s) = some existing →
       (upsertBlock blocks m s e tk ap xp np c pk).1
         = blocks.map (fun b =>
             if blockMatches m s b then
               ⟨existing.meter_id, existing.block_start, existing.block_end,
                tk, ap, xp, np, c, existing.is_peak_hour⟩
             else b) ∧
       (upsertBlock blocks m s e tk ap xp np c pk).2
         = ⟨existing.meter_id, existing.block_start, existing.block_end,
            tk, ap, xp, np, c, existing.is_peak_hour⟩) ∧
    (blocks.find? (blockMatches m s) = none →
       (upsertBlock blocks m s e tk ap xp np c pk).1
         = blocks ++ [⟨m, s, e, tk, ap, xp, np, c, pk⟩] ∧
       (upsertBlock blocks m s e tk ap xp np c pk).2
         = ⟨m, s, e, tk, ap, xp, np, c, pk⟩) := by
  constructor
  · intro existing hfind
    cases existing
    simp [upsertBlock, hfind]
  · intro hfind
    simp [upsertBlock, hfind]

/-- Witness for C6: a conflicting upsert keeps the stored window end
(1800000) and peak flag (`true`) while replacing the five recomputed
columns; an upsert into an empty table inserts all nine arguments. -/
theorem upsert_conflict_updates_five_fields_witness :
    (upsertBlock [⟨1, 0, 1800000, 1, 2, 3, 4, 5, true⟩] 1 0 999 9 8 7 6 50 false).1
      = [⟨1, 0, 1800000, 9, 8, 7, 6, 50, true⟩] ∧
    (upsertBlock [] 1 0 999 9 8 7 6 50 false).1
      = [⟨1, 0, 999, 9, 8, 7, 6, 50, false⟩] := by
  have h := upsert_conflict_updates_five_fields
    [⟨1, 0, 1800000, 1, 2, 3, 4, 5, true⟩] 1 0 999 9 8 7 6 50 false
  have h0 := upsert_conflict_updates_five_fields [] 1 0 999 9 8 7 6 50 false
  constructor
  · rw [(h.1 ⟨1, 0, 1800000, 1, 2, 3, 4, 5, true⟩ (by decide)).1]
    decide
  · rw [(h0.2 (by decide)).1]
    decide

/-- C7: the handshake status is `error` exactly when the producer session
is not registered, `ok` exactly when it is registered and at least one
dashboard is live, `warning` exactly when it is registered and no
dashboard is live; the payload always carries the live dashboard count. -/
theorem handshake_status_cases (registration : Option Registration)
    (dashboards : List Client) :
    ((buildHandshakePayload registration dashboards).status = "error" ↔
       registration = none) ∧
    ((buildHandshakePayload registration dashboards).status = "ok" ↔
       registration ≠ none ∧
       0 < (dashboards.filter fun c => c.readyState == WSOPEN).length) ∧
    ((buildHandshakePayload registration dashboards).status = "warning" ↔
       registration ≠ none ∧
       (dashboards.filter fun c => c.readyState == WSOPEN).length = 0) ∧
    (buildHandshakePayload registration dashboards).dashboardsOnline
      = (dashboards.filter fun c => c.readyState == WSOPEN).length := by
  cases registration with
  | none =>
      rcases Nat.eq_zero_or_pos (dashboards.filter fun c => c.readyState == WSOPEN).length
        with h | h <;>
        simp [buildHandshakePayload, getDashboardStats, h, Nat.pos_iff_ne_zero]
  | some reg =>
      rcases Nat.eq_zero_or_pos (dashboards.filter fun c => c.readyState == WSOPEN).length
        with h | h
      · simp [buildHandshakePayload, getDashboardStats, h]
      · simp only [buildHandshakePayload, getDashboardStats, h]
        simp [List.length_pos, Nat.pos_iff_ne_zero] at h ⊢
        exact h

/-- C8 counterexample: with one reading handled after a successful append
and a storage failure during aggregation, the claim "the reading is kept
AND the failure is not surfaced to the sender as an error-status
acknowledgement" is false: the sender does receive the
`simulator:acknowledged` frame with `status: 'error'`. -/
theorem aggregation_failure_surfaced_cex :
    ¬ ((⟨1, 0, 50⟩ : EnergyReading)
          ∈ (handleMeterReading ⟨[], []⟩ 1 0 50 true).1.readings ∧
       SenderMsg.ack AckStatus.error ∉ (handleMeterReading ⟨[], []⟩ 1 0 50 true).2) := by
  decide

/-- C8 (amended): when a storage error hits the aggregation after a
successful append, the stored reading is not rolled back, no summary row
is written, the sender receives the acknowledgement with `status: 'error'`
(so the failure IS surfaced to the sender) and, because `error.silent` is
set before rethrowing, the outer handler emits no additional generic
error frame. -/
theorem aggregation_failure_logged_not_rolled_back (db : DB)
    (meterId timestamp : Nat) (p : ℚ) :
    (⟨meterId, timestamp, p⟩ : EnergyReading)
        ∈ (handleMeterReading db meterId timestamp p true).1.readings ∧
    (handleMeterReading db meterId timestamp p true).1.blocks = db.blocks ∧
    (handleMeterReading db meterId timestamp p true).2
        = [SenderMsg.ack AckStatus.error] ∧
    SenderMsg.genericError ∉ (handleMeterReading db meterId timestamp p true).2 := by
  simp [handleMeterReading, insertReading]

/-- C9: with primary `P` and fallbacks `[F1, F2]` the candidate list is
`[P, F1, F2]`; an abnormal close at index 0 schedules index 1 (`F1`) after
the short fallback delay and at index 1 schedules index 2 (`F2`); a clean
close at any index schedules index 0 (`P`) after the longer configured
retry delay; an intentional (manual) close schedules nothing. -/
theorem endpoint_resolver_advance_reset (P F1 F2 : String) (retryDelayMs : Nat)
    (hP : ¬P.isEmpty) (hF1 : ¬F1.isEmpty) (hF2 : ¬F2.isEmpty)
    (h01 : F1 ≠ P) (h02 : F2 ≠ P) (h12 : F2 ≠ F1)
    (hdelay : fallbackDelayMs < retryDelayMs) :
    buildCandidates P [F1, F2] = [P, F1, F2] ∧
    (∀ wasClean code, wasAbnormalClose wasClean code = true →
       oncloseNext 3 0 retryDelayMs false wasClean code
           = some (1, fallbackDelayMs) ∧
       oncloseNext 3 1 retryDelayMs false wasClean code
           = some (2, fallbackDelayMs)) ∧
    (∀ index code, oncloseNext 3 index retryDelayMs false true code
        = some (0, retryDelayMs)) ∧
    (∀ numCandidates index rd wasClean code,
       oncloseNext numCandidates index rd true wasClean code = none) ∧
    fallbackDelayMs < retryDelayMs := by
  refine ⟨?_, ?_, ?_, ?_, hdelay⟩
  · simp [buildCandidates, hP, hF1, hF2, h01, h02, h12]
  · intro wasClean code hab
    constructor <;> simp [oncloseNext, hab]
  · intro index code
    simp [oncloseNext, wasAbnormalClose]
  · intro n i rd wc c
    simp [oncloseNext]

/-- Witness for C9: concrete endpoints, 3000 ms retry delay, abnormal
closes with code 1006, a clean close with code 1000, and a manual close. -/
theorem endpoint_resolver_advance_reset_witness :
    buildCandidates "ws://p" ["ws://f1", "ws://f2"]
      = ["ws://p", "ws://f1", "ws://f2"] ∧
    oncloseNext 3 0 3000 false false 1006 = some (1, fallbackDelayMs) ∧
    oncloseNext 3 1 3000 false false 1006 = some (2, fallbackDelayMs) ∧
    oncloseNext 3 2 3000 false true 1000 = some (0, 3000) ∧
    oncloseNext 3 0 3000 true false 1006 = none := by
  have h := endpoint_resolver_advance_reset "ws://p" "ws://f1" "ws://f2" 3000
    (by decide) (by decide) (by decide) (by decide) (by decide) (by decide) (by decide)
  exact ⟨h.1, (h.2.1 false 1006 (by decide)).1, (h.2.1 false 1006 (by decide)).2,
    h.2.2.1 2 1000, h.2.2.2.1 3 0 3000 false 1006⟩

/-- C10: truncating a timestamp to its window start never changes the peak
classification, and the peak flag `calculateBlockForTimestamp` broadcasts
(computed from the raw reading timestamp) always agrees with the one
computed from the window start and persisted by `calculateBlock`. -/
theorem peak_flag_consistent_with_window_start (db : DB) (m t : Nat) :
    isPeakHour (getCurrentBlockStart t) = isPeakHour t ∧
    (calculateBlockForTimestamp db m t).2.isPeakHour
      = isPeakHour (getCurrentBlockStart t) := by
  have h : isPeakHour (getCurrentBlockStart t) = isPeakHour t := by
    simp [isPeakHour, getHours_getCurrentBlockStart]
  exact ⟨h, by simp [calculateBlockForTimestamp, h]⟩

end EMS
